import Mathlib

/-!
Shallow embedding of the wgpu shader demo (src/src/main.rs): the two WGSL
shaders embedded as string constants, and the winit event loop driving them.

Modelling choices:
* WGSL f32 scalars are modelled as rationals; the transcendental builtins
  (sin, cos, atan2, sqrt), which are not rational-valued, are abstracted as
  a record of functions MathOps passed to the shader functions. The builtins
  fract, floor, mix, dot and distance-squared are exact on rationals and are
  embedded concretely.
* The event-loop closure passed to event_loop.run is embedded as a step
  function handleEvent from an incoming event and loop state to a new state,
  a trace of externally visible actions, and an optional panic (a Rust
  unwrap failure terminates the process with a diagnostic).
* Externally supplied nondeterminism (the monotone clock read, success or
  failure of surface.get_current_texture) is attached to the incoming event.
-/

namespace Shader

/-- A 2-component vector of (idealised) f32 values. -/
abbrev Vec2 := ℚ × ℚ

/-- A 4-component vector of (idealised) f32 values. -/
abbrev Vec4 := ℚ × ℚ × ℚ × ℚ

/-- The transcendental WGSL builtins used by the shaders, abstracted as
unspecified functions on the scalar type. -/
structure MathOps where
  sin : ℚ → ℚ
  cos : ℚ → ℚ
  atan2 : ℚ → ℚ → ℚ
  sqrt : ℚ → ℚ

/-- WGSL builtin fract: fractional part, x - floor x. -/
def vfract (x : ℚ) : ℚ := x - (⌊x⌋ : ℚ)

/-- WGSL builtin mix: linear blend x * (1 - a) + y * a. -/
def vmix (x y a : ℚ) : ℚ := x * (1 - a) + y * a

/-- WGSL builtin dot on 2-vectors. -/
def vdot (p q : Vec2) : ℚ := p.1 * q.1 + p.2 * q.2

/-- WGSL builtin distance on 2-vectors: sqrt of the squared difference. -/
def distance (ops : MathOps) (p q : Vec2) : ℚ :=
  ops.sqrt ((p.1 - q.1) * (p.1 - q.1) + (p.2 - q.2) * (p.2 - q.2))

/-- The hash function of the fragment shader (FRAGMENT_SHADER, fn hash). -/
def hash (ops : MathOps) (p : Vec2) : ℚ :=
  let h := vdot p (127.1, 311.7)
  vfract (ops.sin h * 43758.5453123)

/-- The value-noise function of the fragment shader (FRAGMENT_SHADER, fn noise). -/
def noise (ops : MathOps) (p : Vec2) : ℚ :=
  let i : Vec2 := ((⌊p.1⌋ : ℚ), (⌊p.2⌋ : ℚ))
  let f : Vec2 := (vfract p.1, vfract p.2)
  let u : Vec2 := (f.1 * f.1 * (3.0 - 2.0 * f.1), f.2 * f.2 * (3.0 - 2.0 * f.2))
  let a := hash ops i
  let b := hash ops (i.1 + 1.0, i.2)
  let c := hash ops (i.1, i.2 + 1.0)
  let d := hash ops (i.1 + 1.0, i.2 + 1.0)
  vmix (vmix a b u.1) (vmix c d u.1) u.2

/-- The fixed resolution constant of the fragment shader (line 49 of main.rs):
vec2(1980.0, 1200.0). It is a literal in the shader source, not a uniform. -/
def fs_resolution : Vec2 := (1980.0, 1200.0)

/-- The normalisation the fragment shader applies to its builtin position
input: pos.xy divided componentwise by the fixed resolution constant. -/
def fs_normalized (p : Vec2) : Vec2 := (p.1 / fs_resolution.1, p.2 / fs_resolution.2)

/-- The fragment shader entry point (FRAGMENT_SHADER, fn fs_main): a pure
function of the time uniform and the builtin position input. -/
def fs_main (ops : MathOps) (time : ℚ) (pos : Vec4) : Vec4 :=
  let position : Vec2 := fs_normalized (pos.1, pos.2.1)
  let center : Vec2 := (0.5, 0.5)
  let dist := distance ops position center
  let r := ops.sin (position.1 * 10.0 + time * 0.1) * 0.5 + 0.5
  let g := ops.cos (position.2 * 8.0 - time * 0.2) * 0.5 + 0.5
  let b := ops.sin (dist * 15.0 - time * 0.3) * 0.5 + 0.5
  let warp := ops.sin (position.1 * 5.0 + time) * ops.cos (position.2 * 5.0 + time * 0.2) * 0.1
  let warp_pos : Vec2 := (position.1 + warp, position.2 + warp)
  let angle := ops.atan2 (warp_pos.2 - 0.5) (warp_pos.1 - 0.5)
  let spiral := ops.sin (dist * 20.0 + angle * 5.0 + time * 0.2) * 0.5 + 0.5
  let grain_intensity : ℚ := 0.05
  let grain_speed : ℚ := 5.0
  let grain_pos : Vec2 := (pos.1 + time * grain_speed, pos.2.1 + time * grain_speed)
  let grain := noise ops (grain_pos.1 * 20.0, grain_pos.2 * 20.0) * 2.0 - 1.0
  let color : ℚ × ℚ × ℚ :=
    (r * spiral + 0.2 * ops.sin (time * 0.2 + position.1 * 5.0),
     g * spiral + 0.2 * ops.cos (time * 0.3 + position.2 * 3.0),
     b * spiral + 0.2 * ops.sin (time * 0.1 + dist * 10.0))
  let color_with_grain : ℚ × ℚ × ℚ :=
    (color.1 + grain * grain_intensity,
     color.2.1 + grain * grain_intensity,
     color.2.2 + grain * grain_intensity)
  let pulse := ops.sin (time * 0.2) * 0.1 + 0.9
  (color_with_grain.1 * pulse, color_with_grain.2.1 * pulse, color_with_grain.2.2 * pulse, 1.0)

/-- The constant position array of the vertex shader (VERTEX_SHADER, var pos). -/
def vs_pos : List Vec2 := [(-1.0, -1.0), (3.0, -1.0), (-1.0, 3.0)]

/-- The vertex shader entry point (VERTEX_SHADER, fn vs_main): indexes the
3-element position array with the builtin vertex index and appends z = 0,
w = 1. The out-of-bounds branch of the indexing is modelled as none. -/
def vs_main (vertex_index : ℕ) : Option Vec4 :=
  (vs_pos.get? vertex_index).map (fun p => (p.1, p.2, 0.0, 1.0))

/-- The winit control flow values the program uses. -/
inductive ControlFlow where
  | poll : ControlFlow
  | exit : ControlFlow
deriving DecidableEq, Repr

/-- The wgpu present modes; the program only ever selects fifo. -/
inductive PresentMode where
  | fifo : PresentMode
  | immediate : PresentMode
  | mailbox : PresentMode
deriving DecidableEq, Repr

/-- wgpu TextureUsages RENDER_ATTACHMENT bit. -/
def RENDER_ATTACHMENT : ℕ := 16

/-- The wgpu SurfaceConfiguration record built at lines 143-151 of main.rs.
Texture formats and alpha modes are abstracted as numeric identifiers. -/
structure SurfaceConfig where
  usage : ℕ
  format : ℕ
  width : ℕ
  height : ℕ
  present_mode : PresentMode
  alpha_mode : ℕ
  view_formats : List ℕ
deriving DecidableEq, Repr

/-- The initial surface configuration (lines 143-151 of main.rs). -/
def initialConfig (surface_format : ℕ) (w h : ℕ) (alpha0 : ℕ) : SurfaceConfig :=
  { usage := RENDER_ATTACHMENT
    format := surface_format
    width := w
    height := h
    present_mode := PresentMode.fifo
    alpha_mode := alpha0
    view_formats := [] }

/-- The externally visible operations the event-loop closure performs, in
the order it performs them. The draw action records the vertex range, the
instance range and the list of bound vertex buffer slots. -/
inductive Action where
  | computeElapsed (t : ℚ) : Action
  | writeBuffer (offset : ℕ) (value : ℚ) : Action
  | acquireTexture : Action
  | draw (first_vertex vertex_count first_instance instance_count : ℕ)
      (vertex_buffers : List ℕ) : Action
  | submit (command_buffers : ℕ) : Action
  | present : Action
  | configureSurface (cfg : SurfaceConfig) : Action
  | requestRedraw : Action
deriving DecidableEq, Repr

/-- The vertex buffer slots bound by the pipeline: VertexState.buffers is
the empty slice (line 211 of main.rs) and the render pass never calls
set_vertex_buffer. -/
def vertexStateBuffers : List ℕ := []

/-- The single draw call recorded each frame: render_pass.draw(0..3, 0..1)
at line 302 of main.rs, with no vertex buffer bound. -/
def drawCall : Action := Action.draw 0 3 0 1 vertexStateBuffers

/-- The vertex indices generated by the draw call: the range 0..3. -/
def drawVertexRange : List ℕ :=
  match drawCall with
  | Action.draw fv vc _ _ _ => (List.range vc).map (fun k => fv + k)
  | _ => []

/-- The mutable state owned by the event loop: the window identity, the
surface configuration and the winit control flow cell. -/
structure LoopState where
  windowId : ℕ
  config : SurfaceConfig
  controlFlow : ControlFlow
deriving DecidableEq, Repr

/-- The events the closure matches on, together with the external
nondeterminism each carries: a redraw carries the clock reading
(start_time.elapsed().as_secs_f32()) and whether get_current_texture
succeeds. Events the closure ignores are collapsed into other. -/
inductive EventIn where
  | closeRequested (wid : ℕ) : EventIn
  | resized (wid : ℕ) (w h : ℕ) : EventIn
  | scaleFactorChanged (wid : ℕ) (w h : ℕ) : EventIn
  | redrawRequested (wid : ℕ) (now : ℚ) (acquireOk : Bool) : EventIn
  | mainEventsCleared : EventIn
  | other : EventIn
deriving DecidableEq, Repr

/-- Result of one invocation of the event-loop closure: the new state, the
trace of actions performed, and the diagnostic if the invocation panicked
(an unwrap failure aborts the process). -/
structure StepOut where
  state : LoopState
  actions : List Action
  panicMsg : Option String
deriving DecidableEq, Repr

/-- One invocation of the closure passed to event_loop.run (lines 244-313 of
main.rs). It first sets the control flow to Poll, then matches the event:
window events are ignored unless the window id matches; CloseRequested sets
Exit; Resized and ScaleFactorChanged update the configuration width and
height and reconfigure the surface; RedrawRequested computes the elapsed
time, writes it to the time buffer, acquires the surface texture (panicking
on failure), records one draw of 3 vertices, submits and presents;
MainEventsCleared requests a redraw. -/
def handleEvent (e : EventIn) (st0 : LoopState) : StepOut :=
  let st : LoopState := { st0 with controlFlow := ControlFlow.poll }
  match e with
  | EventIn.closeRequested wid =>
      if wid = st.windowId then
        { state := { st with controlFlow := ControlFlow.exit }, actions := [], panicMsg := none }
      else
        { state := st, actions := [], panicMsg := none }
  | EventIn.resized wid w h =>
      if wid = st.windowId then
        let cfg := { st.config with width := w, height := h }
        { state := { st with config := cfg }
          actions := [Action.configureSurface cfg]
          panicMsg := none }
      else
        { state := st, actions := [], panicMsg := none }
  | EventIn.scaleFactorChanged wid w h =>
      if wid = st.windowId then
        let cfg := { st.config with width := w, height := h }
        { state := { st with config := cfg }
          actions := [Action.configureSurface cfg]
          panicMsg := none }
      else
        { state := st, actions := [], panicMsg := none }
  | EventIn.redrawRequested wid now acquireOk =>
      if wid = st.windowId then
        if acquireOk then
          { state := st
            actions := [Action.computeElapsed now, Action.writeBuffer 0 now,
              Action.acquireTexture, drawCall, Action.submit 1, Action.present]
            panicMsg := none }
        else
          { state := st
            actions := [Action.computeElapsed now, Action.writeBuffer 0 now,
              Action.acquireTexture]
            panicMsg := some "called Result unwrap on an Err value (surface.get_current_texture)" }
      else
        { state := st, actions := [], panicMsg := none }
  | EventIn.mainEventsCleared =>
      { state := st, actions := [Action.requestRedraw], panicMsg := none }
  | EventIn.other =>
      { state := st, actions := [], panicMsg := none }

/-- Driving the closure over a list of delivered events, winit-style: once
the control flow is Exit the loop stops delivering events, and a panic
aborts the run immediately. Returns the final state, the concatenated
action trace and the panic diagnostic if one occurred. -/
def run : List EventIn → LoopState → LoopState × List Action × Option String
  | [], st => (st, [], none)
  | e :: es, st =>
      if st.controlFlow = ControlFlow.exit then (st, [], none)
      else
        let o := handleEvent e st
        match o.panicMsg with
        | some d => (o.state, o.actions, some d)
        | none =>
            let r := run es o.state
            (r.1, o.actions ++ r.2.1, r.2.2)

/-- The adapter request at lines 117-122 of main.rs: request_adapter followed
by unwrap. A missing adapter panics the process with a diagnostic. -/
def requestAdapterStep (found : Option ℕ) : Except String ℕ :=
  match found with
  | some a => Except.ok a
  | none => Except.error "called Option unwrap on a None value (request_adapter)"

/-- The device request at lines 125-133 of main.rs: request_device followed
by unwrap. A device creation failure panics the process with a diagnostic. -/
def requestDeviceStep (res : Except ℕ (ℕ × ℕ)) : Except String (ℕ × ℕ) :=
  match res with
  | Except.ok dq => Except.ok dq
  | Except.error _ => Except.error "called Result unwrap on an Err value (request_device)"

/-- The per-pixel colour produced by the pipeline for a given surface
configuration: the fragment stage receives only the builtin position and
the time uniform (the bind group, lines 163-185 of main.rs, binds only the
time buffer), so the configuration does not flow into the shader. -/
def pixelColor (_cfg : SurfaceConfig) (ops : MathOps) (t : ℚ) (fragPos : Vec4) : Vec4 :=
  fs_main ops t fragPos

/-- The values written to the uniform buffer, extracted from a trace in order. -/
def writeValues (as : List Action) : List ℚ :=
  as.filterMap (fun a =>
    match a with
    | Action.writeBuffer _ v => some v
    | _ => none)

/-- The clock readings carried by the redraw events of a delivered list, in
order. -/
def eventTimes (es : List EventIn) : List ℚ :=
  es.filterMap (fun e =>
    match e with
    | EventIn.redrawRequested _ t _ => some t
    | _ => none)

/-- Whether an action draws a frame. -/
def isDraw (a : Action) : Bool :=
  match a with
  | Action.draw _ _ _ _ _ => true
  | _ => false

/-- Membership of a point in the triangle spanned by the three vertex-shader
positions, as a convex (barycentric) combination. -/
def inVsTriangle (p : Vec2) : Prop :=
  ∃ u v w : ℚ, 0 ≤ u ∧ 0 ≤ v ∧ 0 ≤ w ∧ u + v + w = 1 ∧
    p.1 = u * (vs_pos.getD 0 (0, 0)).1 + v * (vs_pos.getD 1 (0, 0)).1 +
      w * (vs_pos.getD 2 (0, 0)).1 ∧
    p.2 = u * (vs_pos.getD 0 (0, 0)).2 + v * (vs_pos.getD 1 (0, 0)).2 +
      w * (vs_pos.getD 2 (0, 0)).2

/-- A concrete instantiation of the abstract math builtins, used to evaluate
the shader functions at concrete inputs. -/
def opsZero : MathOps :=
  { sin := fun _ => 0, cos := fun _ => 0, atan2 := fun _ _ => 0, sqrt := fun _ => 0 }

/-- A concrete surface configuration, used by witnesses. -/
def cfg0 : SurfaceConfig := initialConfig 7 100 200 3

/-- A concrete loop state, used by witnesses. -/
def st0 : LoopState := { windowId := 0, config := cfg0, controlFlow := ControlFlow.poll }

lemma run_of_exit (es : List EventIn) (st : LoopState)
    (h : st.controlFlow = ControlFlow.exit) : run es st = (st, [], none) := by
  cases es <;> simp [run, h]

lemma writeValues_append (a b : List Action) :
    writeValues (a ++ b) = writeValues a ++ writeValues b := by
  simp [writeValues]

/-- The uniform writes performed by a run are, in order, a sublist of the
clock readings carried by the delivered redraw events. -/
lemma run_writes_sublist (es : List EventIn) (st : LoopState) :
    List.Sublist (writeValues (run es st).2.1) (eventTimes es) := by
  induction es generalizing st with
  | nil => simp [run, writeValues]
  | cons e es ih =>
      by_cases hex : st.controlFlow = ControlFlow.exit
      · simp [run, hex, writeValues]
      · cases e with
        | closeRequested wid =>
            by_cases hw : wid = st.windowId <;>
              simpa [run, hex, handleEvent, hw, writeValues_append, eventTimes, writeValues]
                using ih _
        | resized wid w h =>
            by_cases hw : wid = st.windowId <;>
              simpa [run, hex, handleEvent, hw, writeValues_append, eventTimes, writeValues]
                using ih _
        | scaleFactorChanged wid w h =>
            by_cases hw : wid = st.windowId <;>
              simpa [run, hex, handleEvent, hw, writeValues_append, eventTimes, writeValues]
                using ih _
        | redrawRequested wid t ok =>
            by_cases hw : wid = st.windowId
            · cases ok with
              | true =>
                  simp only [run, hex, if_false, handleEvent, hw, if_pos, if_true]
                  simpa [run, hex, handleEvent, hw, writeValues_append, eventTimes,
                    writeValues, drawCall, vertexStateBuffers] using
                    List.Sublist.cons₂ t (ih _)
              | false =>
                  simp [run, hex, handleEvent, hw, eventTimes, writeValues, drawCall,
                    vertexStateBuffers]
            · refine List.Sublist.trans ?_ (List.sublist_cons_self t (eventTimes es))
              simpa [run, hex, handleEvent, hw, writeValues_append, eventTimes,
                writeValues] using ih _
        | mainEventsCleared =>
            simpa [run, hex, handleEvent, writeValues_append, eventTimes, writeValues]
              using ih _
        | other =>
            simpa [run, hex, handleEvent, writeValues_append, eventTimes, writeValues]
              using ih _

/-- C1: on every invocation of the redraw branch that draws a frame, the
closure performs exactly, and in this order: compute the elapsed time,
write it to the time uniform buffer at offset 0, acquire the next surface
texture, record one draw call of 3 vertices with no vertex buffer bound,
submit the single command buffer, and present; and the invocation does not
panic. -/
theorem redraw_frame_trace (st : LoopState) (now : ℚ) :
    (handleEvent (EventIn.redrawRequested st.windowId now true) st).actions =
      [Action.computeElapsed now, Action.writeBuffer 0 now, Action.acquireTexture,
       Action.draw 0 3 0 1 [], Action.submit 1, Action.present] ∧
    (handleEvent (EventIn.redrawRequested st.windowId now true) st).panicMsg = none := by
  constructor <;> simp [handleEvent, drawCall, vertexStateBuffers]

/-- C2: for every elapsed time t greater or equal 0 and every pixel
position, the fragment entry point is deterministic: two evaluations with
the same time uniform and the same builtin position input (and the same
interpretation of the transcendental builtins) produce the same colour.
The embedding fs_main is a pure function of exactly these inputs. -/
theorem fs_main_deterministic (ops : MathOps) (t₁ t₂ : ℚ) (p₁ p₂ : Vec4)
    (_ht : 0 ≤ t₁) (het : t₁ = t₂) (hep : p₁ = p₂) :
    fs_main ops t₁ p₁ = fs_main ops t₂ p₂ := by
  subst het; subst hep; rfl

/-- Witness for C2 at time 1 and position (0, 0, 0, 1). -/
theorem fs_main_deterministic_witness :
    (0 : ℚ) ≤ 1 ∧ fs_main opsZero 1 (0, 0, 0, 1) = fs_main opsZero 1 (0, 0, 0, 1) :=
  ⟨by norm_num,
   fs_main_deterministic opsZero 1 1 (0, 0, 0, 1) (0, 0, 0, 1) (by norm_num) rfl rfl⟩

/-- C10: for every pixel position, every time value and every
interpretation of the transcendental builtins, the alpha component of the
colour returned by the fragment entry point is exactly 1. -/
theorem fs_main_alpha_one (ops : MathOps) (t : ℚ) (p : Vec4) :
    (fs_main ops t p).2.2.2 = 1 := by
  norm_num [fs_main]

/-- C8: the fragment stage normalises the pixel position by the fixed
constant resolution (1980, 1200), and the per-pixel colour is independent
of the surface configuration: any two configurations give the same colour
at the same time and position. -/
theorem fs_resolution_independent_of_config :
    (∀ cfg₁ cfg₂ : SurfaceConfig, ∀ ops : MathOps, ∀ t : ℚ, ∀ p : Vec4,
      pixelColor cfg₁ ops t p = pixelColor cfg₂ ops t p) ∧
    (∀ p : Vec2, fs_normalized p = (p.1 / 1980, p.2 / 1200)) := by
  constructor
  · intro _ _ _ _ _; rfl
  · intro p; norm_num [fs_normalized, fs_resolution]

/-- C7: the vertex stage maps the three indices of the draw call to the
clip-space positions (-1,-1), (3,-1) and (-1,3) with z = 0 and w = 1; the
pipeline binds no vertex buffer; and the triangle spanned by the three
positions contains the whole clip-space square [-1,1] x [-1,1]. -/
theorem vs_fullscreen_triangle :
    vs_main 0 = some (-1, -1, 0, 1) ∧
    vs_main 1 = some (3, -1, 0, 1) ∧
    vs_main 2 = some (-1, 3, 0, 1) ∧
    vertexStateBuffers = [] ∧
    (∀ x y : ℚ, -1 ≤ x → x ≤ 1 → -1 ≤ y → y ≤ 1 → inVsTriangle (x, y)) := by
  refine ⟨by norm_num [vs_main, vs_pos], by norm_num [vs_main, vs_pos],
    by norm_num [vs_main, vs_pos], rfl, ?_⟩
  intro x y hx1 hx2 hy1 hy2
  refine ⟨(2 - x - y) / 4, (x + 1) / 4, (y + 1) / 4,
    by linarith, by linarith, by linarith, by ring, ?_, ?_⟩
  · simp only [vs_pos, List.getD, List.getD_cons_zero, List.getD_cons_succ]
    norm_num
    ring_nf
  · simp only [vs_pos, List.getD, List.getD_cons_zero, List.getD_cons_succ]
    norm_num
    ring_nf

/-- Witness for C7: the viewport corner (1, 1) lies in the triangle. -/
theorem vs_fullscreen_triangle_witness : inVsTriangle (1, 1) :=
  vs_fullscreen_triangle.2.2.2.2 1 1 (by norm_num) (by norm_num) (by norm_num) (by norm_num)

/-- C9: every vertex index generated by the draw call (the range 0..3) is
within the bounds of the 3-element position array, so the out-of-bounds
branch of the indexing in the vertex shader is unreachable. -/
theorem draw_indices_in_bounds (i : ℕ) (hi : i ∈ drawVertexRange) :
    i < vs_pos.length ∧ (vs_main i).isSome = true := by
  have h3 : i < 3 := by
    simpa [drawVertexRange, drawCall, vertexStateBuffers, List.mem_range] using hi
  interval_cases i <;> constructor <;> simp [vs_main, vs_pos]

/-- Witness for C9 at the last generated index, 2. -/
theorem draw_indices_in_bounds_witness :
    2 ∈ drawVertexRange ∧ (2 < vs_pos.length ∧ (vs_main 2).isSome = true) :=
  ⟨by decide, draw_indices_in_bounds 2 (by decide)⟩

/-- C3: after a Resized or ScaleFactorChanged event for the program window,
the surface configuration equals the old one with only width and height
replaced by the new physical size (usage, format, present mode, alpha mode
and view formats unchanged), the handler immediately emits a reconfigure of
the surface, and in any continued run that reconfigure precedes every
action of every later event, in particular every later draw. -/
theorem resize_reconfigures_surface (st : LoopState) (w h : ℕ) (es : List EventIn)
    (hcf : st.controlFlow ≠ ControlFlow.exit) :
    ((handleEvent (EventIn.resized st.windowId w h) st).state.config =
        { st.config with width := w, height := h } ∧
      (handleEvent (EventIn.resized st.windowId w h) st).actions =
        [Action.configureSurface { st.config with width := w, height := h }] ∧
      (run (EventIn.resized st.windowId w h :: es) st).2.1 =
        Action.configureSurface { st.config with width := w, height := h } ::
          (run es (handleEvent (EventIn.resized st.windowId w h) st).state).2.1) ∧
    ((handleEvent (EventIn.scaleFactorChanged st.windowId w h) st).state.config =
        { st.config with width := w, height := h } ∧
      (handleEvent (EventIn.scaleFactorChanged st.windowId w h) st).actions =
        [Action.configureSurface { st.config with width := w, height := h }] ∧
      (run (EventIn.scaleFactorChanged st.windowId w h :: es) st).2.1 =
        Action.configureSurface { st.config with width := w, height := h } ::
          (run es (handleEvent (EventIn.scaleFactorChanged st.windowId w h) st).state).2.1) := by
  constructor <;> refine ⟨by simp [handleEvent], by simp [handleEvent], ?_⟩ <;>
    simp [run, hcf, handleEvent]

/-- Witness for C3 at a concrete state and size 800 x 600. -/
theorem resize_reconfigures_surface_witness :
    (handleEvent (EventIn.resized st0.windowId 800 600) st0).state.config =
      { st0.config with width := 800, height := 600 } ∧
    (handleEvent (EventIn.resized st0.windowId 800 600) st0).actions =
      [Action.configureSurface { st0.config with width := 800, height := 600 }] :=
  ⟨(resize_reconfigures_surface st0 800 600 [] (by decide)).1.1,
   (resize_reconfigures_surface st0 800 600 [] (by decide)).1.2.1⟩

/-- C4: the three error conditions are fatal and unrecovered: a missing
adapter and a failed device request each turn into a panic diagnostic by
the unwrap, and a per-frame surface-acquisition failure panics the redraw
handler, ends the run right after the acquisition attempt (the trace stops
at acquireTexture, nothing is drawn or presented, no retry happens, and no
later event is processed). -/
theorem errors_are_fatal :
    (∃ d : String, requestAdapterStep none = Except.error d ∧ d ≠ "") ∧
    (∀ e : ℕ, ∃ d : String, requestDeviceStep (Except.error e) = Except.error d ∧ d ≠ "") ∧
    (∀ st : LoopState, ∀ now : ℚ, ∀ es : List EventIn,
      st.controlFlow ≠ ControlFlow.exit →
      ∃ d : String,
        (handleEvent (EventIn.redrawRequested st.windowId now false) st).panicMsg = some d ∧
        run (EventIn.redrawRequested st.windowId now false :: es) st =
          ((handleEvent (EventIn.redrawRequested st.windowId now false) st).state,
           [Action.computeElapsed now, Action.writeBuffer 0 now, Action.acquireTexture],
           some d)) := by
  refine ⟨⟨_, rfl, by simp⟩, fun e => ⟨_, rfl, by simp⟩, fun st now es hcf =>
    ⟨"called Result unwrap on an Err value (surface.get_current_texture)",
     by simp [handleEvent], by simp [run, hcf, handleEvent]⟩⟩

/-- Witness for C4 at a concrete state with a pending later event. -/
theorem errors_are_fatal_witness :
    ∃ d : String,
      (handleEvent (EventIn.redrawRequested st0.windowId 1 false) st0).panicMsg = some d ∧
      run (EventIn.redrawRequested st0.windowId 1 false :: [EventIn.mainEventsCleared]) st0 =
        ((handleEvent (EventIn.redrawRequested st0.windowId 1 false) st0).state,
         [Action.computeElapsed 1, Action.writeBuffer 0 1, Action.acquireTexture],
         some d) :=
  errors_are_fatal.2.2 st0 1 [EventIn.mainEventsCleared] (by decide)

/-- C5: across a run, the time values written to the uniform buffer are
monotonically non-decreasing, provided the clock readings delivered with
the redraw events are themselves non-decreasing (the Rust Instant clock is
monotone): any write of a later frame is at least any write of an earlier
frame. -/
theorem time_writes_monotone (es : List EventIn) (st : LoopState)
    (h : (eventTimes es).Pairwise (fun a b => a ≤ b)) :
    (writeValues (run es st).2.1).Pairwise (fun a b => a ≤ b) :=
  List.Pairwise.sublist (run_writes_sublist es st) h

/-- Witness for C5: a run with two drawn frames at times 1 and 2. -/
theorem time_writes_monotone_witness :
    (writeValues (run [EventIn.redrawRequested 0 1 true, EventIn.mainEventsCleared,
        EventIn.redrawRequested 0 2 true] st0).2.1).Pairwise (fun a b => a ≤ b) :=
  time_writes_monotone _ st0 (by decide)

/-- C6: a close request for the program window sets the control flow to
Exit, and the loop processes no further event: the whole run starting at
the close request emits no action at all, in particular it draws no frame,
whatever events were still pending. -/
theorem close_request_exits (st : LoopState) (es : List EventIn)
    (hcf : st.controlFlow ≠ ControlFlow.exit) :
    (handleEvent (EventIn.closeRequested st.windowId) st).state.controlFlow =
      ControlFlow.exit ∧
    run (EventIn.closeRequested st.windowId :: es) st =
      ((handleEvent (EventIn.closeRequested st.windowId) st).state, [], none) := by
  refine ⟨by simp [handleEvent], ?_⟩
  simp [run, hcf, handleEvent]
  exact run_of_exit es _ rfl

/-- Witness for C6: closing with a redraw still pending draws nothing. -/
theorem close_request_exits_witness :
    (handleEvent (EventIn.closeRequested st0.windowId) st0).state.controlFlow =
      ControlFlow.exit ∧
    run (EventIn.closeRequested st0.windowId :: [EventIn.redrawRequested 0 5 true]) st0 =
      ((handleEvent (EventIn.closeRequested st0.windowId) st0).state, [], none) :=
  close_request_exits st0 [EventIn.redrawRequested 0 5 true] (by decide)

end Shader
